import Mathlib

/-!
Verification of the model selection and evaluation workflow of
`App/main/models/SVM.py` (classes `SupportVectorClassifier` and
`SupportVectorRegression`).

The repository code is a thin orchestration layer over an external
machine-learning library.  We embed the orchestration faithfully:

* Python attribute state becomes a Lean structure (`CState` for the
  classifier, `RState` for the regressor); an attribute that has never
  been assigned is the value `PyVal.undef`.
* Metric values are rationals; the not-a-number sentinel written by the
  code (`np.NaN`) is `PyVal.nan`.
* The external library (model fitting, cross-validation, metric
  formulas) is an explicit collaborator: fitted models are opaque
  `Estimator` handles, per-fold cross-validation outcomes are supplied
  by an oracle structure (`CCV` / `RCV`), and the numeric metric
  functions live in a `Backend` record.  The orchestration decisions –
  which fields are written from which part of the external results,
  the argmax fold selection, error propagation – are all in the Lean
  definitions, translated line by line from the source.
-/

namespace SVMSpec

/-- A Python value stored in a model attribute or a log record:
either never assigned (`undef`), the not-a-number sentinel, a number,
a string, or a list of feature names. -/
inductive PyVal where
  | undef
  | nan
  | num (q : ℚ)
  | str (s : String)
  | strList (l : List String)
  deriving DecidableEq

/-- An opaque handle to a fitted model produced by the external
library (a fold-specific fitted estimator, or a fitted RFE selector). -/
structure Estimator where
  id : ℕ
  deriving DecidableEq

/-- The configuration stored inside an untrained estimator object, as
passed to the external constructor by `build_estimator`. -/
structure EstConfig where
  c_param : ℚ
  kernel : String
  class_weight : Option String
  probability : Bool
  deriving DecidableEq

/-- The error taxonomy of the specification. -/
inductive Err where
  | invalidConfiguration
  | insufficientData
  | predictionFailure
  deriving DecidableEq

/-- The numeric routines of the external library, as called by
`evaluate`: `predict`, `accuracy_score`, `f1_score` with
`average='weighted'`, `mean_squared_error` with `squared=False`
(a root mean squared error), `r2_score`, and `concordance_index`. -/
structure Backend where
  predict : Estimator → List (List ℚ) → List ℚ
  accuracy_score : List ℚ → List ℚ → ℚ
  f1_score_weighted : List ℚ → List ℚ → ℚ
  root_mean_squared_error : List ℚ → List ℚ → ℚ
  r2_score : List ℚ → List ℚ → ℚ
  concordance_index : List ℚ → List ℚ → ℚ

/-- `np.mean` over a list of rationals. -/
def mean (l : List ℚ) : ℚ := l.sum / (l.length : ℚ)

/-- Python `str.lower()`: lower-case the string character by
character. -/
def pyLower (s : String) : String := ⟨s.data.map Char.toLower⟩

/-- `np.argmax`: the index of the first occurrence of the maximal
element of the list (`0` on the empty list). -/
def npArgmax : List ℚ → ℕ
  | [] => 0
  | [_] => 0
  | x :: y :: t =>
    if x < (y :: t).getD (npArgmax (y :: t)) 0 then npArgmax (y :: t) + 1 else 0

theorem npArgmax_lt_length : ∀ (l : List ℚ), l ≠ [] → npArgmax l < l.length
  | [], h => absurd rfl h
  | [_], _ => by simp [npArgmax]
  | x :: y :: t, _ => by
    have ih : npArgmax (y :: t) < t.length + 1 := by
      simpa using npArgmax_lt_length (y :: t) (by simp)
    by_cases hx : x < (y :: t).getD (npArgmax (y :: t)) 0
    · simp only [npArgmax, if_pos hx, List.length_cons]
      omega
    · simp only [npArgmax, if_neg hx, List.length_cons]
      omega

theorem npArgmax_le : ∀ (l : List ℚ) (j : ℕ), j < l.length →
    l.getD j 0 ≤ l.getD (npArgmax l) 0
  | [], _, h => by simp at h
  | [x], j, h => by
    cases j with
    | zero => simp [npArgmax]
    | succ k => simp at h
  | x :: y :: t, j, h => by
    have ih := fun k hk => npArgmax_le (y :: t) k hk
    by_cases hx : x < (y :: t).getD (npArgmax (y :: t)) 0
    · simp only [npArgmax, if_pos hx]
      cases j with
      | zero => simpa using hx.le
      | succ k =>
        have hk : k < (y :: t).length := by
          simpa [Nat.succ_lt_succ_iff] using h
        simpa using ih k hk
    · simp only [npArgmax, if_neg hx]
      push_neg at hx
      cases j with
      | zero => simp
      | succ k =>
        have hk : k < (y :: t).length := by
          simpa [Nat.succ_lt_succ_iff] using h
        have := (ih k hk).trans hx
        simpa using this

theorem npArgmax_first : ∀ (l : List ℚ) (j : ℕ), j < npArgmax l →
    l.getD j 0 < l.getD (npArgmax l) 0
  | [], _, h => by simp [npArgmax] at h
  | [_], _, h => by simp [npArgmax] at h
  | x :: y :: t, j, h => by
    have ih := fun k hk => npArgmax_first (y :: t) k hk
    by_cases hx : x < (y :: t).getD (npArgmax (y :: t)) 0
    · simp only [npArgmax, if_pos hx] at h ⊢
      cases j with
      | zero => simpa using hx
      | succ k =>
        have hk : k < npArgmax (y :: t) := by omega
        simpa using ih k hk
    · simp only [npArgmax, if_neg hx] at h
      omega

/-- The per-fold results returned by the external `cross_validate` call
of `SupportVectorClassifier.train`: for each scoring identifier a list
of per-fold scores (train-subset and validation-subset), and the list
of per-fold fitted models.  Supplied as an oracle, since the fitting
itself is delegated to the external library. -/
structure CCV where
  train_accuracy : List ℚ
  train_roc_auc : List ℚ
  test_accuracy : List ℚ
  test_roc_auc : List ℚ
  estimator : List Estimator
  deriving DecidableEq

/-- The per-fold results returned by the external `cross_validate` call
of `SupportVectorRegression.train`. -/
structure RCV where
  train_neg_root_mean_squared_error : List ℚ
  train_r2 : List ℚ
  test_neg_root_mean_squared_error : List ℚ
  test_r2 : List ℚ
  estimator : List Estimator
  deriving DecidableEq

/-- The outcomes of the external calls a classifier training run can
make: the fitted RFE selector, the feature ranking computed by
`sort_feature_importance`, and the cross-validation results. -/
structure CExternal where
  rfe_model : Estimator
  rfe_sorted : List String
  cv : CCV
  deriving DecidableEq

/-- The outcomes of the external calls a regression training run can
make (RFECV selector in Mode A, cross-validation results in Mode B). -/
structure RExternal where
  rfe_model : Estimator
  rfe_sorted : List String
  cv : RCV
  deriving DecidableEq

/-- Modelled from the spec: the kernel identifiers the external
estimator constructors recognize ("kernel identifier must be one of a
fixed supported set"). -/
def recognizedKernels : List String :=
  ["linear", "poly", "rbf", "sigmoid", "precomputed"]

/-- Modelled from the spec: the recognized class-weighting policy
keywords ("class-weighting policy (classification only) must be a
recognized keyword"). -/
def recognizedClassWeights : List String := ["balanced"]

/-- Modelled from the spec: the external `SVC` constructor, which
signals `InvalidConfiguration` when the kernel identifier or the
weighting policy is unrecognized, and otherwise returns an untrained
estimator holding the configuration. -/
def SVC (C : ℚ) (kernel class_weight : String) : Except Err EstConfig :=
  if kernel ∈ recognizedKernels ∧ class_weight ∈ recognizedClassWeights then
    Except.ok ⟨C, kernel, some class_weight, true⟩
  else
    Except.error Err.invalidConfiguration

/-- Modelled from the spec: the external `SVR` constructor, which
signals `InvalidConfiguration` when the kernel identifier is
unrecognized, and otherwise returns an untrained estimator. -/
def SVR (C : ℚ) (kernel : String) : Except Err EstConfig :=
  if kernel ∈ recognizedKernels then
    Except.ok ⟨C, kernel, none, false⟩
  else
    Except.error Err.invalidConfiguration

/-- Modelled from the spec: the external cross-validation routine
fails with `InsufficientData` when fewer rows than folds are available
("if fewer rows than K are available, cross-validation fails with
InsufficientData"; "K_fold = N (leave-one-out) must not error");
otherwise it returns the per-fold results supplied by the oracle. -/
def cross_validate {α : Type} (n_rows K : ℕ) (result : α) : Except Err α :=
  if n_rows < K then Except.error Err.insufficientData else Except.ok result

/-- The attribute state of a `SupportVectorClassifier` instance:
configuration fields set in `__init__`, the dataset split and run
options supplied by `BaseModel`, and every attribute the methods of
the class read or write.  Metric attributes start as `PyVal.undef`. -/
structure CState where
  model_name : String
  class_weight : String
  c_param : ℚ
  kernel : String
  n_features_to_select : ℕ
  rfe_step : ℕ
  rfe : Bool
  input_features : List String
  label_feature : String
  X_train : List (List ℚ)
  Y_train : List ℚ
  X_test : List (List ℚ)
  Y_test : List ℚ
  estimator : Option EstConfig
  best_estimator : Option Estimator
  sorted_features : List String
  train_acc : PyVal
  train_roc_acu : PyVal
  train_r2 : PyVal
  val_acc : PyVal
  val_roc_auc : PyVal
  val_r2 : PyVal
  test_acc : PyVal
  test_f1 : PyVal
  Y_train_pred : List ℚ
  Y_test_pred : List ℚ
  deriving DecidableEq

/-- The attribute state of a `SupportVectorRegression` instance. -/
structure RState where
  model_name : String
  c_param : ℚ
  kernel : String
  n_features_to_select : ℕ
  rfe_step : ℕ
  rfe : Bool
  input_features : List String
  label_feature : String
  X_train : List (List ℚ)
  Y_train : List ℚ
  X_test : List (List ℚ)
  Y_test : List ℚ
  estimator : Option EstConfig
  best_estimator : Option Estimator
  sorted_features : List String
  train_acc : PyVal
  train_r2 : PyVal
  val_acc : PyVal
  val_r2 : PyVal
  test_acc : PyVal
  test_r2 : PyVal
  train_ci : PyVal
  test_ci : PyVal
  Y_train_pred : List ℚ
  Y_test_pred : List ℚ
  deriving DecidableEq

/-- A fresh `SupportVectorClassifier` at the start of a run:
`__init__` sets the configuration defaults visible in the source;
the dataset split, the feature names and the mode flag `rfe` are
supplied by the surrounding application (`BaseModel`, not under
`src/`) and are taken here as parameters.  Modelled from the spec:
all entities are created fresh per training run, and no metric
attribute is defined before training, so metric attributes start as
`PyVal.undef`. -/
def CState.init (rfe : Bool) (Xtr : List (List ℚ)) (Ytr : List ℚ)
    (Xte : List (List ℚ)) (Yte : List ℚ)
    (input_features : List String) (label_feature : String) : CState where
  model_name := "Support Vector Classifier"
  class_weight := "balanced"
  c_param := 1
  kernel := "linear"
  n_features_to_select := 1
  rfe_step := 1
  rfe := rfe
  input_features := input_features
  label_feature := label_feature
  X_train := Xtr
  Y_train := Ytr
  X_test := Xte
  Y_test := Yte
  estimator := none
  best_estimator := none
  sorted_features := []
  train_acc := PyVal.undef
  train_roc_acu := PyVal.undef
  train_r2 := PyVal.undef
  val_acc := PyVal.undef
  val_roc_auc := PyVal.undef
  val_r2 := PyVal.undef
  test_acc := PyVal.undef
  test_f1 := PyVal.undef
  Y_train_pred := []
  Y_test_pred := []

/-- A fresh `SupportVectorRegression` at the start of a run; see
`CState.init`. -/
def RState.init (rfe : Bool) (Xtr : List (List ℚ)) (Ytr : List ℚ)
    (Xte : List (List ℚ)) (Yte : List ℚ)
    (input_features : List String) (label_feature : String) : RState where
  model_name := "Support Vector Regression"
  c_param := 1
  kernel := "linear"
  n_features_to_select := 1
  rfe_step := 1
  rfe := rfe
  input_features := input_features
  label_feature := label_feature
  X_train := Xtr
  Y_train := Ytr
  X_test := Xte
  Y_test := Yte
  estimator := none
  best_estimator := none
  sorted_features := []
  train_acc := PyVal.undef
  train_r2 := PyVal.undef
  val_acc := PyVal.undef
  val_r2 := PyVal.undef
  test_acc := PyVal.undef
  test_r2 := PyVal.undef
  train_ci := PyVal.undef
  test_ci := PyVal.undef
  Y_train_pred := []
  Y_test_pred := []

/-- `SupportVectorClassifier.build_estimator` (SVM.py line 29):
`self.estimator = SVC(probability=True, C=self.c_param,
kernel=self.kernel, class_weight=self.class_weight.lower())`. -/
def CState.build_estimator (s : CState) : Except Err CState :=
  (SVC s.c_param s.kernel (pyLower s.class_weight)).map
    (fun e => { s with estimator := some e })

/-- `SupportVectorRegression.build_estimator` (SVM.py line 95):
`self.estimator = SVR(C=self.c_param, kernel=self.kernel)`. -/
def RState.build_estimator (s : RState) : Except Err RState :=
  (SVR s.c_param s.kernel).map (fun e => { s with estimator := some e })

/-- `SupportVectorClassifier.train` (SVM.py lines 31-52).
Mode A (`self.rfe == True`): fit an RFE selector (external; its fitted
handle and the ranking from `sort_feature_importance` come from the
oracle `ext`), adopt it as `best_estimator`, and set
`self.train_acc, self.train_r2, self.val_acc, self.val_r2` to the
not-a-number sentinel — exactly the four attribute names of line 37.
Mode B: run the external `cross_validate` with `K_fold` folds (its
per-fold scores and fitted models come from the oracle), store the
per-metric fold means, and select
`k_fold_cm['estimator'][np.argmax(k_fold_cm['test_roc_auc'])]`. -/
def CState.train (ext : CExternal) (K_fold : ℕ) (s : CState) :
    Except Err CState :=
  if s.rfe = true then
    Except.ok { s with
      best_estimator := some ext.rfe_model
      sorted_features := ext.rfe_sorted
      train_acc := PyVal.nan
      train_r2 := PyVal.nan
      val_acc := PyVal.nan
      val_r2 := PyVal.nan }
  else
    (cross_validate s.X_train.length K_fold ext.cv).map (fun cm =>
      { s with
        train_acc := PyVal.num (mean cm.train_accuracy)
        train_roc_acu := PyVal.num (mean cm.train_roc_auc)
        val_acc := PyVal.num (mean cm.test_accuracy)
        val_roc_auc := PyVal.num (mean cm.test_roc_auc)
        best_estimator :=
          some (cm.estimator.getD (npArgmax cm.test_roc_auc) ⟨0⟩) })

/-- `SupportVectorRegression.train` (SVM.py lines 97-118).
Mode A uses the RFECV selector (external), then line 103 sets the four
metric attributes to the sentinel.  Mode B stores the fold means of
the negative-RMSE and R² scores and selects
`k_fold_cm['estimator'][np.argmax(k_fold_cm['test_neg_root_mean_squared_error'])]`. -/
def RState.train (ext : RExternal) (K_fold : ℕ) (s : RState) :
    Except Err RState :=
  if s.rfe = true then
    Except.ok { s with
      best_estimator := some ext.rfe_model
      sorted_features := ext.rfe_sorted
      train_acc := PyVal.nan
      train_r2 := PyVal.nan
      val_acc := PyVal.nan
      val_r2 := PyVal.nan }
  else
    (cross_validate s.X_train.length K_fold ext.cv).map (fun cm =>
      { s with
        train_acc := PyVal.num (mean cm.train_neg_root_mean_squared_error)
        train_r2 := PyVal.num (mean cm.train_r2)
        val_acc := PyVal.num (mean cm.test_neg_root_mean_squared_error)
        val_r2 := PyVal.num (mean cm.test_r2)
        best_estimator :=
          some (cm.estimator.getD
            (npArgmax cm.test_neg_root_mean_squared_error) ⟨0⟩) })

/-- `SupportVectorClassifier.evaluate` (SVM.py lines 54-59): predict
on both splits with the selected model, then compute `accuracy_score`
and weighted `f1_score` on the test split from the predicted labels. -/
def CState.evaluate (b : Backend) (s : CState) : CState :=
  let best := s.best_estimator.getD ⟨0⟩
  let ytrp := b.predict best s.X_train
  let ytep := b.predict best s.X_test
  { s with
    Y_train_pred := ytrp
    Y_test_pred := ytep
    test_acc := PyVal.num (b.accuracy_score s.Y_test ytep)
    test_f1 := PyVal.num (b.f1_score_weighted s.Y_test ytep) }

/-- `SupportVectorRegression.evaluate` (SVM.py lines 120-129): predict
on both splits with the selected model, then compute RMSE and R² on
both splits (overwriting `self.train_acc` and `self.train_r2`) and a
concordance index on both splits. -/
def RState.evaluate (b : Backend) (s : RState) : RState :=
  let best := s.best_estimator.getD ⟨0⟩
  let ytrp := b.predict best s.X_train
  let ytep := b.predict best s.X_test
  { s with
    Y_train_pred := ytrp
    Y_test_pred := ytep
    train_acc := PyVal.num (b.root_mean_squared_error s.Y_train ytrp)
    test_acc := PyVal.num (b.root_mean_squared_error s.Y_test ytep)
    train_r2 := PyVal.num (b.r2_score s.Y_train ytrp)
    test_r2 := PyVal.num (b.r2_score s.Y_test ytep)
    train_ci := PyVal.num (b.concordance_index s.Y_train ytrp)
    test_ci := PyVal.num (b.concordance_index s.Y_test ytep) }

/-- `SupportVectorClassifier.save_log` (SVM.py lines 72-79): the
`cache` dictionary, in insertion order, with
`features_sorted_by_importance` appended exactly when `self.rfe`. -/
def CState.save_log (s : CState) : List (String × PyVal) :=
  [("model", PyVal.str s.model_name),
   ("input_features", PyVal.strList s.input_features),
   ("label_feature", PyVal.str s.label_feature),
   ("class_weight", PyVal.str s.class_weight),
   ("c_param", PyVal.num s.c_param),
   ("kernel", PyVal.str s.kernel),
   ("train_acc", s.train_acc),
   ("train_roc_acu", s.train_roc_acu),
   ("val_acc", s.val_acc),
   ("val_roc_auc", s.val_roc_auc),
   ("test_acc", s.test_acc),
   ("test_f1", s.test_f1)] ++
  (if s.rfe = true then
    [("features_sorted_by_importance", PyVal.strList s.sorted_features)]
  else [])

/-- `SupportVectorRegression.save_log` (SVM.py lines 141-149): the
`cache` dictionary, in insertion order; `class_weight` is the literal
`np.NaN`. -/
def RState.save_log (s : RState) : List (String × PyVal) :=
  [("model", PyVal.str s.model_name),
   ("input_features", PyVal.strList s.input_features),
   ("label_feature", PyVal.str s.label_feature),
   ("class_weight", PyVal.nan),
   ("c_param", PyVal.num s.c_param),
   ("kernel", PyVal.str s.kernel),
   ("train_acc", s.train_acc),
   ("train_r2", s.train_r2),
   ("val_acc", s.val_acc),
   ("val_r2", s.val_r2),
   ("test_acc", s.test_acc),
   ("test_r2", s.test_r2),
   ("train_ci", s.train_ci),
   ("test_ci", s.test_ci)] ++
  (if s.rfe = true then
    [("features_sorted_by_importance", PyVal.strList s.sorted_features)]
  else [])

/-- The field names of the classification log record, in insertion
order, without the optional feature-ranking field. -/
def cFieldNames : List String :=
  ["model", "input_features", "label_feature", "class_weight",
   "c_param", "kernel", "train_acc", "train_roc_acu", "val_acc",
   "val_roc_auc", "test_acc", "test_f1"]

/-- The field names of the regression log record, in insertion order,
without the optional feature-ranking field. -/
def rFieldNames : List String :=
  ["model", "input_features", "label_feature", "class_weight",
   "c_param", "kernel", "train_acc", "train_r2", "val_acc", "val_r2",
   "test_acc", "test_r2", "train_ci", "test_ci"]

theorem CState.train_rfe_c (s : CState) (ext : CExternal) (K : ℕ)
    (h : s.rfe = true) :
    s.train ext K = Except.ok { s with
      best_estimator := some ext.rfe_model
      sorted_features := ext.rfe_sorted
      train_acc := PyVal.nan
      train_r2 := PyVal.nan
      val_acc := PyVal.nan
      val_r2 := PyVal.nan } := by
  simp [CState.train, h]

theorem RState.train_rfe_r (s : RState) (ext : RExternal) (K : ℕ)
    (h : s.rfe = true) :
    s.train ext K = Except.ok { s with
      best_estimator := some ext.rfe_model
      sorted_features := ext.rfe_sorted
      train_acc := PyVal.nan
      train_r2 := PyVal.nan
      val_acc := PyVal.nan
      val_r2 := PyVal.nan } := by
  simp [RState.train, h]

theorem CState.train_cv_c (s : CState) (ext : CExternal) (K : ℕ)
    (h : s.rfe = false) (hK : K ≤ s.X_train.length) :
    s.train ext K = Except.ok { s with
      train_acc := PyVal.num (mean ext.cv.train_accuracy)
      train_roc_acu := PyVal.num (mean ext.cv.train_roc_auc)
      val_acc := PyVal.num (mean ext.cv.test_accuracy)
      val_roc_auc := PyVal.num (mean ext.cv.test_roc_auc)
      best_estimator :=
        some (ext.cv.estimator.getD (npArgmax ext.cv.test_roc_auc) ⟨0⟩) } := by
  simp [CState.train, cross_validate, h, Nat.not_lt.mpr hK, Except.map]

theorem RState.train_cv_r (s : RState) (ext : RExternal) (K : ℕ)
    (h : s.rfe = false) (hK : K ≤ s.X_train.length) :
    s.train ext K = Except.ok { s with
      train_acc := PyVal.num (mean ext.cv.train_neg_root_mean_squared_error)
      train_r2 := PyVal.num (mean ext.cv.train_r2)
      val_acc := PyVal.num (mean ext.cv.test_neg_root_mean_squared_error)
      val_r2 := PyVal.num (mean ext.cv.test_r2)
      best_estimator :=
        some (ext.cv.estimator.getD
          (npArgmax ext.cv.test_neg_root_mean_squared_error) ⟨0⟩) } := by
  simp [RState.train, cross_validate, h, Nat.not_lt.mpr hK, Except.map]

theorem CState.train_insufficient_c (s : CState) (ext : CExternal) (K : ℕ)
    (h : s.rfe = false) (hK : s.X_train.length < K) :
    s.train ext K = Except.error Err.insufficientData := by
  simp [CState.train, cross_validate, h, hK, Except.map]

theorem RState.train_insufficient_r (s : RState) (ext : RExternal) (K : ℕ)
    (h : s.rfe = false) (hK : s.X_train.length < K) :
    s.train ext K = Except.error Err.insufficientData := by
  simp [RState.train, cross_validate, h, hK, Except.map]

/-- A concrete stand-in for the external numeric library, with simple
computable rational formulas, used only to run the workflow on closed
inputs; the workflow itself never looks inside these functions. -/
def demoBackend : Backend where
  predict e X := X.map (fun row => row.sum + (e.id : ℚ))
  accuracy_score y p :=
    mean (List.zipWith (fun a b => if a = b then (1 : ℚ) else 0) y p)
  f1_score_weighted y p :=
    mean (List.zipWith (fun a b => if a = b then (1 : ℚ) else 0) y p)
  root_mean_squared_error y p :=
    mean (List.zipWith (fun a b => (a - b) ^ 2) y p)
  r2_score y p := 1 - (List.zipWith (fun a b => (a - b) ^ 2) y p).sum
  concordance_index y p := mean (List.zipWith (fun a b => a * b) y p)

/-- A concrete oracle for the external calls of a classifier run:
two folds, with the second fold holding the best validation ROC-AUC. -/
def demoCExt : CExternal where
  rfe_model := ⟨7⟩
  rfe_sorted := ["f1"]
  cv := { train_accuracy := [9/10, 4/5]
          train_roc_auc := [1/2, 1]
          test_accuracy := [3/5, 7/10]
          test_roc_auc := [1/2, 3/4]
          estimator := [⟨1⟩, ⟨2⟩] }

/-- A concrete oracle for the external calls of a regression run:
two folds, with the second fold holding the best (largest)
negative-RMSE validation score. -/
def demoRExt : RExternal where
  rfe_model := ⟨9⟩
  rfe_sorted := ["f"]
  cv := { train_neg_root_mean_squared_error := [-2, -2]
          train_r2 := [1/2, 1/2]
          test_neg_root_mean_squared_error := [-3, -1]
          test_r2 := [0, 1/4]
          estimator := [⟨1⟩, ⟨2⟩] }

/-- A fresh classifier configured for Mode A (`rfe = true`). -/
def demoCA : CState :=
  CState.init true [[0], [1]] [0, 1] [[2]] [1] ["f1"] "label"

/-- A fresh classifier configured for Mode B (`rfe = false`), with a
three-row training set. -/
def demoCB : CState :=
  CState.init false [[0], [1], [2]] [0, 1, 0] [[3]] [1] ["f1"] "label"

/-- A fresh regressor configured for Mode A (`rfe = true`). -/
def demoRA : RState :=
  RState.init true [[0], [2]] [0, 2] [[4]] [4] ["f"] "y"

/-- A fresh regressor configured for Mode B (`rfe = false`), with a
two-row training set. -/
def demoRB : RState :=
  RState.init false [[0], [2]] [0, 2] [[4]] [4] ["f"] "y"

/-- The log record of the full Mode A classifier pipeline
(train, evaluate, save_log) on the demo inputs. -/
def demoCARecord : List (String × PyVal) :=
  match demoCA.train demoCExt 5 with
  | Except.ok s1 => (s1.evaluate demoBackend).save_log
  | Except.error _ => []

/-- The log record of the full Mode B regression pipeline
(train with two folds, evaluate, save_log) on the demo inputs. -/
def demoRBRecord : List (String × PyVal) :=
  match demoRB.train demoRExt 2 with
  | Except.ok s1 => (s1.evaluate demoBackend).save_log
  | Except.error _ => []

/-- C1: In Mode B (k-fold cross-validation), for every training set
and every fold count K, the selected model returned by `train` is the
fold-specific fitted model whose validation score on the primary
selection metric (validation ROC-AUC for `SupportVectorClassifier`,
validation negative RMSE for `SupportVectorRegression`) is maximal
over the K folds, with ties broken by the first occurrence in fold
order. -/
theorem modeB_selects_best_validation_fold
    (sC : CState) (sR : RState) (extC : CExternal) (extR : RExternal)
    (K : ℕ)
    (hC : sC.rfe = false) (hR : sR.rfe = false)
    (hKC : K ≤ sC.X_train.length) (hKR : K ≤ sR.X_train.length)
    (hsc : extC.cv.test_roc_auc.length = K)
    (hsr : extR.cv.test_neg_root_mean_squared_error.length = K)
    (hK : 0 < K) :
    ∃ s1 r1 i j,
      sC.train extC K = Except.ok s1 ∧
      i < K ∧
      s1.best_estimator = some (extC.cv.estimator.getD i ⟨0⟩) ∧
      (∀ m < K,
        extC.cv.test_roc_auc.getD m 0 ≤ extC.cv.test_roc_auc.getD i 0) ∧
      (∀ m < i,
        extC.cv.test_roc_auc.getD m 0 < extC.cv.test_roc_auc.getD i 0) ∧
      sR.train extR K = Except.ok r1 ∧
      j < K ∧
      r1.best_estimator = some (extR.cv.estimator.getD j ⟨0⟩) ∧
      (∀ m < K,
        extR.cv.test_neg_root_mean_squared_error.getD m 0 ≤
          extR.cv.test_neg_root_mean_squared_error.getD j 0) ∧
      (∀ m < j,
        extR.cv.test_neg_root_mean_squared_error.getD m 0 <
          extR.cv.test_neg_root_mean_squared_error.getD j 0) := by
  have hne : extC.cv.test_roc_auc ≠ [] := by
    intro h0
    rw [h0] at hsc
    simp at hsc
    omega
  have hner : extR.cv.test_neg_root_mean_squared_error ≠ [] := by
    intro h0
    rw [h0] at hsr
    simp at hsr
    omega
  exact ⟨_, _, npArgmax extC.cv.test_roc_auc,
    npArgmax extR.cv.test_neg_root_mean_squared_error,
    CState.train_cv_c sC extC K hC hKC,
    hsc ▸ npArgmax_lt_length _ hne,
    rfl,
    fun m hm => npArgmax_le _ m (hsc.symm ▸ hm),
    fun m hm => npArgmax_first _ m hm,
    RState.train_cv_r sR extR K hR hKR,
    hsr ▸ npArgmax_lt_length _ hner,
    rfl,
    fun m hm => npArgmax_le _ m (hsr.symm ▸ hm),
    fun m hm => npArgmax_first _ m hm⟩

/-- Witness for C1 at the demo Mode B inputs with two folds. -/
theorem modeB_selects_best_validation_fold_witness :
    demoCB.rfe = false ∧ demoRB.rfe = false ∧
    2 ≤ demoCB.X_train.length ∧ 2 ≤ demoRB.X_train.length ∧
    demoCExt.cv.test_roc_auc.length = 2 ∧
    demoRExt.cv.test_neg_root_mean_squared_error.length = 2 ∧
    0 < 2 ∧
    (∃ s1 r1 i j,
      demoCB.train demoCExt 2 = Except.ok s1 ∧
      i < 2 ∧
      s1.best_estimator = some (demoCExt.cv.estimator.getD i ⟨0⟩) ∧
      (∀ m < 2,
        demoCExt.cv.test_roc_auc.getD m 0 ≤
          demoCExt.cv.test_roc_auc.getD i 0) ∧
      (∀ m < i,
        demoCExt.cv.test_roc_auc.getD m 0 <
          demoCExt.cv.test_roc_auc.getD i 0) ∧
      demoRB.train demoRExt 2 = Except.ok r1 ∧
      j < 2 ∧
      r1.best_estimator = some (demoRExt.cv.estimator.getD j ⟨0⟩) ∧
      (∀ m < 2,
        demoRExt.cv.test_neg_root_mean_squared_error.getD m 0 ≤
          demoRExt.cv.test_neg_root_mean_squared_error.getD j 0) ∧
      (∀ m < j,
        demoRExt.cv.test_neg_root_mean_squared_error.getD m 0 <
          demoRExt.cv.test_neg_root_mean_squared_error.getD j 0)) :=
  ⟨rfl, rfl, by simp [demoCB, CState.init], by simp [demoRB, RState.init],
   rfl, rfl, by omega,
   modeB_selects_best_validation_fold demoCB demoRB demoCExt demoRExt 2
     rfl rfl (by simp [demoCB, CState.init]) (by simp [demoRB, RState.init])
     rfl rfl (by omega)⟩

/-- C2: for a Mode A (recursive feature elimination) run of
`SupportVectorClassifier`, the log record does NOT carry the
not-a-number sentinel in every reported train and validation metric
field: line 37 of SVM.py assigns the sentinel to `self.train_r2` and
`self.val_r2`, attribute names the classifier never reports, and
leaves the reported `train_roc_acu` and `val_roc_auc` attributes
unset, so the record reports them with their never-assigned value.
This run of the full Mode A pipeline on concrete inputs exhibits the
divergence. -/
theorem modeA_classifier_log_roc_fields_not_nan :
    demoCARecord.lookup "train_acc" = some PyVal.nan ∧
    demoCARecord.lookup "val_acc" = some PyVal.nan ∧
    demoCARecord.lookup "train_roc_acu" = some PyVal.undef ∧
    demoCARecord.lookup "val_roc_auc" = some PyVal.undef ∧
    PyVal.undef ≠ PyVal.nan := by
  refine ⟨?_, ?_, ?_, ?_, by simp⟩ <;>
    simp [demoCARecord, demoCA, CState.init, CState.train,
      CState.evaluate, CState.save_log, List.lookup]

/-- C3 counterexample: in this Mode B regression run the logged
`train_acc` is `4` — the training-split RMSE recomputed by `evaluate`
from the selected model — and not the fold mean `-2` of the per-fold
cross-validation train scores, so the train metric computed during
`train` does not survive `evaluate` unmodified for
`SupportVectorRegression`. -/
theorem regression_train_metric_overwritten :
    demoRBRecord.lookup "train_acc" = some (PyVal.num 4) ∧
    mean demoRExt.cv.train_neg_root_mean_squared_error = -2 ∧
    PyVal.num 4 ≠ PyVal.num (-2) := by
  refine ⟨?_, by norm_num [demoRExt, mean], by norm_num⟩
  norm_num [demoRBRecord, demoRB, RState.init, RState.train,
    cross_validate, RState.evaluate, RState.save_log, List.lookup,
    demoRExt, demoBackend, mean, npArgmax]
  simp

/-- C3 as amended: in Mode B the validation metric fields of the
final log record are the fold means computed during `train`, and the
selected model is the single best-fold model, for both classes; the
classifier train metric means also survive `evaluate` unchanged, but
`SupportVectorRegression.evaluate` overwrites `train_acc` and
`train_r2` with the training-split RMSE and R² of the selected model,
so the regression train metrics in the final record are not the fold
means. -/
theorem modeB_logged_metrics
    (sC : CState) (sR : RState) (extC : CExternal) (extR : RExternal)
    (b : Backend) (K : ℕ)
    (hC : sC.rfe = false) (hR : sR.rfe = false)
    (hKC : K ≤ sC.X_train.length) (hKR : K ≤ sR.X_train.length) :
    ∃ s1 r1,
      sC.train extC K = Except.ok s1 ∧
      sR.train extR K = Except.ok r1 ∧
      (s1.evaluate b).save_log.lookup "train_acc"
        = some (PyVal.num (mean extC.cv.train_accuracy)) ∧
      (s1.evaluate b).save_log.lookup "train_roc_acu"
        = some (PyVal.num (mean extC.cv.train_roc_auc)) ∧
      (s1.evaluate b).save_log.lookup "val_acc"
        = some (PyVal.num (mean extC.cv.test_accuracy)) ∧
      (s1.evaluate b).save_log.lookup "val_roc_auc"
        = some (PyVal.num (mean extC.cv.test_roc_auc)) ∧
      (s1.evaluate b).best_estimator
        = some (extC.cv.estimator.getD (npArgmax extC.cv.test_roc_auc) ⟨0⟩) ∧
      (r1.evaluate b).save_log.lookup "val_acc"
        = some (PyVal.num (mean extR.cv.test_neg_root_mean_squared_error)) ∧
      (r1.evaluate b).save_log.lookup "val_r2"
        = some (PyVal.num (mean extR.cv.test_r2)) ∧
      (r1.evaluate b).save_log.lookup "train_acc"
        = some (PyVal.num (b.root_mean_squared_error sR.Y_train
            (b.predict (extR.cv.estimator.getD
              (npArgmax extR.cv.test_neg_root_mean_squared_error) ⟨0⟩)
              sR.X_train))) ∧
      (r1.evaluate b).save_log.lookup "train_r2"
        = some (PyVal.num (b.r2_score sR.Y_train
            (b.predict (extR.cv.estimator.getD
              (npArgmax extR.cv.test_neg_root_mean_squared_error) ⟨0⟩)
              sR.X_train))) ∧
      (r1.evaluate b).best_estimator
        = some (extR.cv.estimator.getD
            (npArgmax extR.cv.test_neg_root_mean_squared_error) ⟨0⟩) := by
  refine ⟨_, _, CState.train_cv_c sC extC K hC hKC,
    RState.train_cv_r sR extR K hR hKR, ?_, ?_, ?_, ?_, ?_, ?_, ?_, ?_, ?_, ?_⟩ <;>
    simp [CState.evaluate, RState.evaluate, CState.save_log,
      RState.save_log, List.lookup, hC, hR]

/-- Witness for the amended C3 at the demo Mode B inputs. -/
theorem modeB_logged_metrics_witness :
    demoCB.rfe = false ∧ demoRB.rfe = false ∧
    2 ≤ demoCB.X_train.length ∧ 2 ≤ demoRB.X_train.length ∧
    (∃ s1 r1,
      demoCB.train demoCExt 2 = Except.ok s1 ∧
      demoRB.train demoRExt 2 = Except.ok r1 ∧
      (s1.evaluate demoBackend).save_log.lookup "train_acc"
        = some (PyVal.num (mean demoCExt.cv.train_accuracy)) ∧
      (s1.evaluate demoBackend).save_log.lookup "train_roc_acu"
        = some (PyVal.num (mean demoCExt.cv.train_roc_auc)) ∧
      (s1.evaluate demoBackend).save_log.lookup "val_acc"
        = some (PyVal.num (mean demoCExt.cv.test_accuracy)) ∧
      (s1.evaluate demoBackend).save_log.lookup "val_roc_auc"
        = some (PyVal.num (mean demoCExt.cv.test_roc_auc)) ∧
      (s1.evaluate demoBackend).best_estimator
        = some (demoCExt.cv.estimator.getD
            (npArgmax demoCExt.cv.test_roc_auc) ⟨0⟩) ∧
      (r1.evaluate demoBackend).save_log.lookup "val_acc"
        = some (PyVal.num
            (mean demoRExt.cv.test_neg_root_mean_squared_error)) ∧
      (r1.evaluate demoBackend).save_log.lookup "val_r2"
        = some (PyVal.num (mean demoRExt.cv.test_r2)) ∧
      (r1.evaluate demoBackend).save_log.lookup "train_acc"
        = some (PyVal.num (demoBackend.root_mean_squared_error demoRB.Y_train
            (demoBackend.predict (demoRExt.cv.estimator.getD
              (npArgmax demoRExt.cv.test_neg_root_mean_squared_error) ⟨0⟩)
              demoRB.X_train))) ∧
      (r1.evaluate demoBackend).save_log.lookup "train_r2"
        = some (PyVal.num (demoBackend.r2_score demoRB.Y_train
            (demoBackend.predict (demoRExt.cv.estimator.getD
              (npArgmax demoRExt.cv.test_neg_root_mean_squared_error) ⟨0⟩)
              demoRB.X_train))) ∧
      (r1.evaluate demoBackend).best_estimator
        = some (demoRExt.cv.estimator.getD
            (npArgmax demoRExt.cv.test_neg_root_mean_squared_error) ⟨0⟩)) :=
  ⟨rfl, rfl, by simp [demoCB, CState.init], by simp [demoRB, RState.init],
   modeB_logged_metrics demoCB demoRB demoCExt demoRExt demoBackend 2
     rfl rfl (by simp [demoCB, CState.init]) (by simp [demoRB, RState.init])⟩

/-- C4 counterexample: in this Mode B regression run the logged
`val_acc` is `-2`, the fold mean of the negative-RMSE validation
scores.  A root mean squared error is nonnegative, so the `val_acc`
field of the log record does not hold an RMSE value as the claim
states; it holds the negation of one. -/
theorem regression_val_acc_negative :
    demoRBRecord.lookup "val_acc" = some (PyVal.num (-2)) ∧
    (-2 : ℚ) < 0 := by
  refine ⟨?_, by norm_num⟩
  norm_num [demoRBRecord, demoRB, RState.init, RState.train,
    cross_validate, RState.evaluate, RState.save_log, List.lookup,
    demoRExt, demoBackend, mean, npArgmax]
  simp

/-- C4 as amended: for every regression run the log record has
`class_weight` equal to the not-a-number sentinel; in a Mode A run
the validation metrics `val_acc` and `val_r2` of the record are the
not-a-number sentinel (set at line 103 and never overwritten by
`evaluate`); in a Mode B run, after `evaluate`, `train_acc` and
`test_acc` hold the RMSE of the selected model on the train and test
splits, while `val_acc` holds the fold mean of the negative-RMSE
validation scores (the negation of an RMSE, not an RMSE itself);
`train_r2`, `val_r2`, `test_r2`, `train_ci` and `test_ci` are
recorded alongside. -/
theorem regression_log_schema
    (sAny sA sR : RState) (extR : RExternal) (b : Backend) (K : ℕ)
    (hA : sA.rfe = true)
    (hR : sR.rfe = false) (hKR : K ≤ sR.X_train.length) :
    sAny.save_log.lookup "class_weight" = some PyVal.nan ∧
    (∃ rA, sA.train extR K = Except.ok rA ∧
      (rA.evaluate b).save_log.lookup "val_acc" = some PyVal.nan ∧
      (rA.evaluate b).save_log.lookup "val_r2" = some PyVal.nan) ∧
    ∃ r1, sR.train extR K = Except.ok r1 ∧
      (r1.evaluate b).save_log.lookup "train_acc"
        = some (PyVal.num (b.root_mean_squared_error sR.Y_train
            (b.predict (extR.cv.estimator.getD
              (npArgmax extR.cv.test_neg_root_mean_squared_error) ⟨0⟩)
              sR.X_train))) ∧
      (r1.evaluate b).save_log.lookup "test_acc"
        = some (PyVal.num (b.root_mean_squared_error sR.Y_test
            (b.predict (extR.cv.estimator.getD
              (npArgmax extR.cv.test_neg_root_mean_squared_error) ⟨0⟩)
              sR.X_test))) ∧
      (r1.evaluate b).save_log.lookup "val_acc"
        = some (PyVal.num
            (mean extR.cv.test_neg_root_mean_squared_error)) ∧
      (r1.evaluate b).save_log.lookup "train_r2"
        = some (PyVal.num (b.r2_score sR.Y_train
            (b.predict (extR.cv.estimator.getD
              (npArgmax extR.cv.test_neg_root_mean_squared_error) ⟨0⟩)
              sR.X_train))) ∧
      (r1.evaluate b).save_log.lookup "val_r2"
        = some (PyVal.num (mean extR.cv.test_r2)) ∧
      (r1.evaluate b).save_log.lookup "test_r2"
        = some (PyVal.num (b.r2_score sR.Y_test
            (b.predict (extR.cv.estimator.getD
              (npArgmax extR.cv.test_neg_root_mean_squared_error) ⟨0⟩)
              sR.X_test))) ∧
      (r1.evaluate b).save_log.lookup "train_ci"
        = some (PyVal.num (b.concordance_index sR.Y_train
            (b.predict (extR.cv.estimator.getD
              (npArgmax extR.cv.test_neg_root_mean_squared_error) ⟨0⟩)
              sR.X_train))) ∧
      (r1.evaluate b).save_log.lookup "test_ci"
        = some (PyVal.num (b.concordance_index sR.Y_test
            (b.predict (extR.cv.estimator.getD
              (npArgmax extR.cv.test_neg_root_mean_squared_error) ⟨0⟩)
              sR.X_test))) := by
  refine ⟨by simp [RState.save_log, List.lookup],
    ⟨_, RState.train_rfe_r sA extR K hA, ?_, ?_⟩,
    ?_⟩
  · simp [RState.evaluate, RState.save_log, List.lookup]
  · simp [RState.evaluate, RState.save_log, List.lookup]
  · refine ⟨_, RState.train_cv_r sR extR K hR hKR,
      ?_, ?_, ?_, ?_, ?_, ?_, ?_, ?_⟩ <;>
      simp [RState.evaluate, RState.save_log, List.lookup, hR]

/-- Witness for the amended C4 at the demo Mode A and Mode B inputs. -/
theorem regression_log_schema_witness :
    demoRA.rfe = true ∧
    demoRB.rfe = false ∧ 2 ≤ demoRB.X_train.length ∧
    (demoRA.save_log.lookup "class_weight" = some PyVal.nan ∧
    (∃ rA, demoRA.train demoRExt 2 = Except.ok rA ∧
      (rA.evaluate demoBackend).save_log.lookup "val_acc"
        = some PyVal.nan ∧
      (rA.evaluate demoBackend).save_log.lookup "val_r2"
        = some PyVal.nan) ∧
    ∃ r1, demoRB.train demoRExt 2 = Except.ok r1 ∧
      (r1.evaluate demoBackend).save_log.lookup "train_acc"
        = some (PyVal.num (demoBackend.root_mean_squared_error demoRB.Y_train
            (demoBackend.predict (demoRExt.cv.estimator.getD
              (npArgmax demoRExt.cv.test_neg_root_mean_squared_error) ⟨0⟩)
              demoRB.X_train))) ∧
      (r1.evaluate demoBackend).save_log.lookup "test_acc"
        = some (PyVal.num (demoBackend.root_mean_squared_error demoRB.Y_test
            (demoBackend.predict (demoRExt.cv.estimator.getD
              (npArgmax demoRExt.cv.test_neg_root_mean_squared_error) ⟨0⟩)
              demoRB.X_test))) ∧
      (r1.evaluate demoBackend).save_log.lookup "val_acc"
        = some (PyVal.num
            (mean demoRExt.cv.test_neg_root_mean_squared_error)) ∧
      (r1.evaluate demoBackend).save_log.lookup "train_r2"
        = some (PyVal.num (demoBackend.r2_score demoRB.Y_train
            (demoBackend.predict (demoRExt.cv.estimator.getD
              (npArgmax demoRExt.cv.test_neg_root_mean_squared_error) ⟨0⟩)
              demoRB.X_train))) ∧
      (r1.evaluate demoBackend).save_log.lookup "val_r2"
        = some (PyVal.num (mean demoRExt.cv.test_r2)) ∧
      (r1.evaluate demoBackend).save_log.lookup "test_r2"
        = some (PyVal.num (demoBackend.r2_score demoRB.Y_test
            (demoBackend.predict (demoRExt.cv.estimator.getD
              (npArgmax demoRExt.cv.test_neg_root_mean_squared_error) ⟨0⟩)
              demoRB.X_test))) ∧
      (r1.evaluate demoBackend).save_log.lookup "train_ci"
        = some (PyVal.num (demoBackend.concordance_index demoRB.Y_train
            (demoBackend.predict (demoRExt.cv.estimator.getD
              (npArgmax demoRExt.cv.test_neg_root_mean_squared_error) ⟨0⟩)
              demoRB.X_train))) ∧
      (r1.evaluate demoBackend).save_log.lookup "test_ci"
        = some (PyVal.num (demoBackend.concordance_index demoRB.Y_test
            (demoBackend.predict (demoRExt.cv.estimator.getD
              (npArgmax demoRExt.cv.test_neg_root_mean_squared_error) ⟨0⟩)
              demoRB.X_test)))) :=
  ⟨rfl, rfl, by simp [demoRB, RState.init],
   regression_log_schema demoRA demoRA demoRB demoRExt demoBackend 2
     rfl rfl (by simp [demoRB, RState.init])⟩

/-- C5: for every run that completes training, the field names of the
log record are exactly the classification field set for
`SupportVectorClassifier` and exactly the regression field set for
`SupportVectorRegression`, and the record carries
`features_sorted_by_importance` exactly when the run used Mode A
(`rfe = true`); a Mode B run omits it. -/
theorem log_field_names
    (s : CState) (r : RState) (extC : CExternal) (extR : RExternal)
    (b : Backend) (K : ℕ)
    (hKC : K ≤ s.X_train.length) (hKR : K ≤ r.X_train.length) :
    ∃ s1 r1,
      s.train extC K = Except.ok s1 ∧
      r.train extR K = Except.ok r1 ∧
      (s1.evaluate b).save_log.map Prod.fst
        = cFieldNames ++
          (if s.rfe = true then ["features_sorted_by_importance"] else []) ∧
      (r1.evaluate b).save_log.map Prod.fst
        = rFieldNames ++
          (if r.rfe = true then ["features_sorted_by_importance"] else []) := by
  cases hc : s.rfe with
  | false =>
    cases hr : r.rfe with
    | false =>
      refine ⟨_, _, CState.train_cv_c s extC K hc hKC,
        RState.train_cv_r r extR K hr hKR, ?_, ?_⟩ <;>
        simp [CState.evaluate, RState.evaluate, CState.save_log,
          RState.save_log, cFieldNames, rFieldNames, hc, hr]
    | true =>
      refine ⟨_, _, CState.train_cv_c s extC K hc hKC,
        RState.train_rfe_r r extR K hr, ?_, ?_⟩ <;>
        simp [CState.evaluate, RState.evaluate, CState.save_log,
          RState.save_log, cFieldNames, rFieldNames, hc, hr]
  | true =>
    cases hr : r.rfe with
    | false =>
      refine ⟨_, _, CState.train_rfe_c s extC K hc,
        RState.train_cv_r r extR K hr hKR, ?_, ?_⟩ <;>
        simp [CState.evaluate, RState.evaluate, CState.save_log,
          RState.save_log, cFieldNames, rFieldNames, hc, hr]
    | true =>
      refine ⟨_, _, CState.train_rfe_c s extC K hc,
        RState.train_rfe_r r extR K hr, ?_, ?_⟩ <;>
        simp [CState.evaluate, RState.evaluate, CState.save_log,
          RState.save_log, cFieldNames, rFieldNames, hc, hr]

/-- Witness for C5 at the demo inputs: a Mode A classifier run and a
Mode B regression run. -/
theorem log_field_names_witness :
    2 ≤ demoCA.X_train.length ∧ 2 ≤ demoRB.X_train.length ∧
    (∃ s1 r1,
      demoCA.train demoCExt 2 = Except.ok s1 ∧
      demoRB.train demoRExt 2 = Except.ok r1 ∧
      (s1.evaluate demoBackend).save_log.map Prod.fst
        = cFieldNames ++
          (if demoCA.rfe = true then ["features_sorted_by_importance"]
           else []) ∧
      (r1.evaluate demoBackend).save_log.map Prod.fst
        = rFieldNames ++
          (if demoRB.rfe = true then ["features_sorted_by_importance"]
           else [])) :=
  ⟨by simp [demoCA, CState.init], by simp [demoRB, RState.init],
   log_field_names demoCA demoRB demoCExt demoRExt demoBackend 2
     (by simp [demoCA, CState.init]) (by simp [demoRB, RState.init])⟩

/-- C6: for every selected model and every split, the classifier
`evaluate` computes exactly accuracy and weighted F1 on the test
split from the predicted labels, and the regression `evaluate`
computes exactly RMSE and R² on both splits plus a concordance index
on both splits, all from point predictions of the selected model; the
two record-update equations list every field that is written, so no
other attribute (in particular no estimator) is touched and nothing
is retrained. -/
theorem evaluate_metric_set
    (b : Backend) (s : CState) (r : RState) (e f : Estimator)
    (hs : s.best_estimator = some e) (hr : r.best_estimator = some f) :
    s.evaluate b = { s with
      Y_train_pred := b.predict e s.X_train
      Y_test_pred := b.predict e s.X_test
      test_acc := PyVal.num (b.accuracy_score s.Y_test (b.predict e s.X_test))
      test_f1 :=
        PyVal.num (b.f1_score_weighted s.Y_test (b.predict e s.X_test)) } ∧
    r.evaluate b = { r with
      Y_train_pred := b.predict f r.X_train
      Y_test_pred := b.predict f r.X_test
      train_acc :=
        PyVal.num (b.root_mean_squared_error r.Y_train (b.predict f r.X_train))
      test_acc :=
        PyVal.num (b.root_mean_squared_error r.Y_test (b.predict f r.X_test))
      train_r2 := PyVal.num (b.r2_score r.Y_train (b.predict f r.X_train))
      test_r2 := PyVal.num (b.r2_score r.Y_test (b.predict f r.X_test))
      train_ci :=
        PyVal.num (b.concordance_index r.Y_train (b.predict f r.X_train))
      test_ci :=
        PyVal.num (b.concordance_index r.Y_test (b.predict f r.X_test)) } := by
  constructor <;> simp [CState.evaluate, RState.evaluate, hs, hr]

/-- A classifier state with a selected model, for exercising
`evaluate` on closed inputs. -/
def demoCE : CState := { demoCB with best_estimator := some ⟨3⟩ }

/-- A regressor state with a selected model, for exercising
`evaluate` on closed inputs. -/
def demoRE : RState := { demoRB with best_estimator := some ⟨4⟩ }

/-- Witness for C6 at the demo states with selected models. -/
theorem evaluate_metric_set_witness :
    demoCE.best_estimator = some ⟨3⟩ ∧
    demoRE.best_estimator = some ⟨4⟩ ∧
    (demoCE.evaluate demoBackend = { demoCE with
      Y_train_pred := demoBackend.predict ⟨3⟩ demoCE.X_train
      Y_test_pred := demoBackend.predict ⟨3⟩ demoCE.X_test
      test_acc := PyVal.num (demoBackend.accuracy_score demoCE.Y_test
        (demoBackend.predict ⟨3⟩ demoCE.X_test))
      test_f1 := PyVal.num (demoBackend.f1_score_weighted demoCE.Y_test
        (demoBackend.predict ⟨3⟩ demoCE.X_test)) } ∧
    demoRE.evaluate demoBackend = { demoRE with
      Y_train_pred := demoBackend.predict ⟨4⟩ demoRE.X_train
      Y_test_pred := demoBackend.predict ⟨4⟩ demoRE.X_test
      train_acc := PyVal.num (demoBackend.root_mean_squared_error
        demoRE.Y_train (demoBackend.predict ⟨4⟩ demoRE.X_train))
      test_acc := PyVal.num (demoBackend.root_mean_squared_error
        demoRE.Y_test (demoBackend.predict ⟨4⟩ demoRE.X_test))
      train_r2 := PyVal.num (demoBackend.r2_score demoRE.Y_train
        (demoBackend.predict ⟨4⟩ demoRE.X_train))
      test_r2 := PyVal.num (demoBackend.r2_score demoRE.Y_test
        (demoBackend.predict ⟨4⟩ demoRE.X_test))
      train_ci := PyVal.num (demoBackend.concordance_index demoRE.Y_train
        (demoBackend.predict ⟨4⟩ demoRE.X_train))
      test_ci := PyVal.num (demoBackend.concordance_index demoRE.Y_test
        (demoBackend.predict ⟨4⟩ demoRE.X_test)) }) :=
  ⟨rfl, rfl,
   evaluate_metric_set demoBackend demoCE demoRE ⟨3⟩ ⟨4⟩ rfl rfl⟩

/-- C7: for every training set with N rows, Mode B training with
`K_fold = N` (leave-one-out) succeeds, while `K_fold > N` fails with
`InsufficientData`, and `train` surfaces that error to its caller
unmodified, with no retry, for both classes. -/
theorem kfold_boundary
    (s : CState) (r : RState) (extC : CExternal) (extR : RExternal)
    (K : ℕ)
    (hC : s.rfe = false) (hR : r.rfe = false)
    (hKC : s.X_train.length < K) (hKR : r.X_train.length < K) :
    (∃ s1, s.train extC s.X_train.length = Except.ok s1) ∧
    (∃ r1, r.train extR r.X_train.length = Except.ok r1) ∧
    s.train extC K = Except.error Err.insufficientData ∧
    r.train extR K = Except.error Err.insufficientData :=
  ⟨⟨_, CState.train_cv_c s extC _ hC le_rfl⟩,
   ⟨_, RState.train_cv_r r extR _ hR le_rfl⟩,
   CState.train_insufficient_c s extC K hC hKC,
   RState.train_insufficient_r r extR K hR hKR⟩

/-- Witness for C7 at the demo Mode B states, with one more fold than
training rows. -/
theorem kfold_boundary_witness :
    demoCB.rfe = false ∧ demoRB.rfe = false ∧
    demoCB.X_train.length < 4 ∧ demoRB.X_train.length < 4 ∧
    ((∃ s1, demoCB.train demoCExt demoCB.X_train.length = Except.ok s1) ∧
     (∃ r1, demoRB.train demoRExt demoRB.X_train.length = Except.ok r1) ∧
     demoCB.train demoCExt 4 = Except.error Err.insufficientData ∧
     demoRB.train demoRExt 4 = Except.error Err.insufficientData) :=
  ⟨rfl, rfl, by simp [demoCB, CState.init], by simp [demoRB, RState.init],
   kfold_boundary demoCB demoRB demoCExt demoRExt 4
     rfl rfl (by simp [demoCB, CState.init]) (by simp [demoRB, RState.init])⟩

/-- C8: `build_estimator` signals `InvalidConfiguration` exactly when
the kernel identifier or (for the classifier) the lower-cased
class-weighting policy is unrecognized, and for every recognized
configuration it succeeds, storing the untrained configured estimator
in the `estimator` attribute. -/
theorem build_estimator_validates
    (s1 s2 : CState) (r1 r2 : RState)
    (h1 : s1.kernel ∈ recognizedKernels ∧
      pyLower s1.class_weight ∈ recognizedClassWeights)
    (h2 : ¬(s2.kernel ∈ recognizedKernels ∧
      pyLower s2.class_weight ∈ recognizedClassWeights))
    (h3 : r1.kernel ∈ recognizedKernels)
    (h4 : r2.kernel ∉ recognizedKernels) :
    s1.build_estimator = Except.ok { s1 with
      estimator :=
        some ⟨s1.c_param, s1.kernel, some (pyLower s1.class_weight), true⟩ } ∧
    s2.build_estimator = Except.error Err.invalidConfiguration ∧
    r1.build_estimator = Except.ok { r1 with
      estimator := some ⟨r1.c_param, r1.kernel, none, false⟩ } ∧
    r2.build_estimator = Except.error Err.invalidConfiguration := by
  refine ⟨?_, ?_, ?_, ?_⟩ <;>
    simp [CState.build_estimator, RState.build_estimator, SVC, SVR,
      h1, h2, h3, h4, Except.map]

/-- A classifier configured with an unrecognized kernel. -/
def demoCBad : CState := { demoCB with kernel := "quadratic" }

/-- A regressor configured with an unrecognized kernel. -/
def demoRBad : RState := { demoRB with kernel := "fourier" }

/-- Witness for C8: the default configurations are recognized, the
altered kernels are not. -/
theorem build_estimator_validates_witness :
    (demoCB.kernel ∈ recognizedKernels ∧
      pyLower demoCB.class_weight ∈ recognizedClassWeights) ∧
    ¬(demoCBad.kernel ∈ recognizedKernels ∧
      pyLower demoCBad.class_weight ∈ recognizedClassWeights) ∧
    demoRB.kernel ∈ recognizedKernels ∧
    demoRBad.kernel ∉ recognizedKernels ∧
    (demoCB.build_estimator = Except.ok { demoCB with
      estimator := some ⟨demoCB.c_param, demoCB.kernel,
        some (pyLower demoCB.class_weight), true⟩ } ∧
    demoCBad.build_estimator = Except.error Err.invalidConfiguration ∧
    demoRB.build_estimator = Except.ok { demoRB with
      estimator := some ⟨demoRB.c_param, demoRB.kernel, none, false⟩ } ∧
    demoRBad.build_estimator = Except.error Err.invalidConfiguration) :=
  ⟨by decide, by decide, by decide, by decide,
   build_estimator_validates demoCB demoCBad demoRB demoRBad
     (by decide) (by decide) (by decide) (by decide)⟩

/-- C9: evaluation is reproducible: running `evaluate` a second time
on the state produced by a first `evaluate` yields the identical
state (so every metric value is identical across repeated
evaluations), and `evaluate` never changes the selected model or the
untrained estimator (no retraining side effects), for both classes. -/
theorem evaluate_reproducible (b : Backend) (s : CState) (r : RState) :
    (s.evaluate b).evaluate b = s.evaluate b ∧
    (s.evaluate b).best_estimator = s.best_estimator ∧
    (s.evaluate b).estimator = s.estimator ∧
    (r.evaluate b).evaluate b = r.evaluate b ∧
    (r.evaluate b).best_estimator = r.best_estimator ∧
    (r.evaluate b).estimator = r.estimator :=
  ⟨rfl, rfl, rfl, rfl, rfl, rfl⟩

/-- C10: `SupportVectorClassifier.evaluate` modifies only the two
prediction fields and the two test metric fields — the record-update
equation lists every written field — and the cross-validation metric
fields set by `train` are left unchanged; unlike
`SupportVectorRegression.evaluate`, which overwrites `train_acc` and
`train_r2` with fresh training-split computations. -/
theorem classifier_evaluate_frame (b : Backend) (s : CState) (r : RState) :
    s.evaluate b = { s with
      Y_train_pred := b.predict (s.best_estimator.getD ⟨0⟩) s.X_train
      Y_test_pred := b.predict (s.best_estimator.getD ⟨0⟩) s.X_test
      test_acc := PyVal.num (b.accuracy_score s.Y_test
        (b.predict (s.best_estimator.getD ⟨0⟩) s.X_test))
      test_f1 := PyVal.num (b.f1_score_weighted s.Y_test
        (b.predict (s.best_estimator.getD ⟨0⟩) s.X_test)) } ∧
    (s.evaluate b).train_acc = s.train_acc ∧
    (s.evaluate b).train_roc_acu = s.train_roc_acu ∧
    (s.evaluate b).val_acc = s.val_acc ∧
    (s.evaluate b).val_roc_auc = s.val_roc_auc ∧
    (r.evaluate b).train_acc = PyVal.num (b.root_mean_squared_error
      r.Y_train (b.predict (r.best_estimator.getD ⟨0⟩) r.X_train)) ∧
    (r.evaluate b).train_r2 = PyVal.num (b.r2_score
      r.Y_train (b.predict (r.best_estimator.getD ⟨0⟩) r.X_train)) :=
  ⟨rfl, rfl, rfl, rfl, rfl, rfl, rfl⟩

end SVMSpec

